import Mathlib

/-!
Shallow embedding of the Personal-Finance-Tracker program (src/main.py).

Modelling conventions:
* Python floats are modelled as exact rationals (`ℚ`).  Every claim settled
  here is about structural behaviour (which branch is taken, what is appended,
  threshold comparisons the spec states over real numbers), not about binary
  rounding, so the rational model is faithful for these purposes.
* A value passed from the CLI for the `date` and `amount` parameters of
  `User.add_transaction` is a Python string; `float(x)` on it either returns a
  number or raises `ValueError`.  Such a value is modelled as `PyStr`: its text
  together with the result of `float` on it (`none` = `ValueError`).
* Python's insertion-ordered `dict` is modelled as an association list.
* The decorators `validate_amount` and `log_transaction` are inlined into
  `User.add_transaction` exactly as they execute for the positional calls the
  program makes (`args[0] = self`, `args[1] = date`, `args[2] = amount`,
  `args[3] = category`).  Note that `validate_amount` reads `args[1]`, i.e. the
  `date` argument.
-/

/-- A Python value for the `date`/`amount` arguments: its text and the result
of Python `float()` on it (`none` models a raised `ValueError`). -/
structure PyStr where
  text : String
  toFloat : Option ℚ
  deriving DecidableEq

/-- Embeds `class Transaction` (src/main.py lines 36-66).  `amount` stores the
result of `float(amount)` performed in `__init__`. -/
structure Transaction where
  transaction_id : ℕ
  date : String
  amount : ℚ
  category : String
  type : String
  description : String
  deriving DecidableEq

/-- Embeds `class SavingsGoal` (src/main.py lines 68-100). -/
structure SavingsGoal where
  goal_id : ℕ
  name : String
  target_amount : ℚ
  current_amount : ℚ
  deriving DecidableEq

/-- Embeds `class Budget` (src/main.py lines 102-126). -/
structure Budget where
  budget_id : ℕ
  category : String
  limit : ℚ
  period : String
  deriving DecidableEq

/-- Embeds `class User` (src/main.py lines 128-229). -/
structure User where
  username : String
  password : String
  transactions : List Transaction
  savings_goals : List SavingsGoal
  budgets : List Budget
  categories : List String
  deriving DecidableEq

/-- The default category seed installed by `User.__init__` (line 135). -/
def defaultCategories : List String :=
  ["Groceries", "Bills", "Entertainment", "Transportation", "Housing", "Other"]

/-- `User.__init__` as called with no collections (registration path):
empty transaction/goal/budget lists and the default category seed. -/
def User.new (username password : String) : User :=
  { username := username
    password := password
    transactions := []
    savings_goals := []
    budgets := []
    categories := defaultCategories }

/-- `SavingsGoal.add_funds` (lines 75-77): unconditionally adds `float(amount)`
to `current_amount`, with no validation of any kind. -/
def SavingsGoal.add_funds (g : SavingsGoal) (amount : ℚ) : SavingsGoal :=
  { g with current_amount := g.current_amount + amount }

/-- `SavingsGoal.get_progress_percentage` (lines 79-81). -/
def SavingsGoal.get_progress_percentage (g : SavingsGoal) : ℚ :=
  if g.target_amount > 0 then g.current_amount / g.target_amount * 100 else 0

/-- `User.get_balance` (lines 141-145): recomputes both sums inline. -/
def User.get_balance (u : User) : ℚ :=
  let total_income := ((u.transactions.filter (fun t => t.type == "income")).map
    Transaction.amount).sum
  let total_expenses := ((u.transactions.filter (fun t => t.type == "expense")).map
    Transaction.amount).sum
  total_income - total_expenses

/-- `User.get_total_income` (lines 147-149). -/
def User.get_total_income (u : User) : ℚ :=
  ((u.transactions.filter (fun t => t.type == "income")).map Transaction.amount).sum

/-- `User.get_total_expenses` (lines 151-153). -/
def User.get_total_expenses (u : User) : ℚ :=
  ((u.transactions.filter (fun t => t.type == "expense")).map Transaction.amount).sum

/-- Lookup in an insertion-ordered Python dict modelled as an assoc list. -/
def dictLookup {β : Type} : List (String × β) → String → Option β
  | [], _ => none
  | (k, v) :: rest, key => if k = key then some v else dictLookup rest key

/-- One iteration of the loop body of `get_expenses_by_category` (lines
158-162): `if cat not in d: d[cat] = 0` then `d[cat] += amount`. -/
def dictAdd (m : List (String × ℚ)) (k : String) (v : ℚ) : List (String × ℚ) :=
  match dictLookup m k with
  | none => m ++ [(k, v)]
  | some _ => m.map (fun p => if p.1 = k then (p.1, p.2 + v) else p)

/-- `User.get_expenses_by_category` (lines 155-163): sums `expense`-type
transactions grouped by category, insertion order = first-seen order. -/
def User.get_expenses_by_category (u : User) : List (String × ℚ) :=
  u.transactions.foldl
    (fun m t => if t.type == "expense" then dictAdd m t.category t.amount else m) []

/-- A budget notification (lines 174 and 176); the program interpolates
`category`, `limit` and `spent` into an alert/warning string, abstracted here
to a tagged value carrying the same data. -/
inductive BudgetNotification where
  | exceeded (category : String) (limit spent : ℚ)
  | warning (category : String) (limit spent : ℚ)
  deriving DecidableEq

/-- `User.check_budget_notifications` (lines 165-178): for each budget, in
budget-collection order, only when `budget.category in expenses_by_category`
compare the spending with the limit and `limit * 0.8`. -/
def User.check_budget_notifications (u : User) : List BudgetNotification :=
  u.budgets.filterMap (fun budget =>
    match dictLookup u.get_expenses_by_category budget.category with
    | none => none
    | some current_spending =>
      if current_spending ≥ budget.limit then
        some (.exceeded budget.category budget.limit current_spending)
      else if current_spending ≥ budget.limit * (8/10 : ℚ) then
        some (.warning budget.category budget.limit current_spending)
      else none)

/-- Outcome of one `User.add_transaction` call through its two decorators:
`ok` = transaction constructed and appended; `invalidAmount` = the
`validate_amount` wrapper printed an error and returned `None` (nothing
appended, nothing logged); `valueError` = `float(amount)` raised inside
`Transaction.__init__`, an uncaught exception (nothing appended, nothing
logged). -/
inductive AddOutcome where
  | ok (t : Transaction) (u : User)
  | invalidAmount
  | valueError
  deriving DecidableEq

/-- The transaction constructed by an `ok` outcome, if any. -/
def AddOutcome.newTx : AddOutcome → Option Transaction
  | .ok t _ => some t
  | _ => none

/-- Whether the outcome is `ok`. -/
def AddOutcome.isOk : AddOutcome → Bool
  | .ok _ _ => true
  | _ => false

/-- `User.add_transaction` (lines 180-187) as executed for a positional call:
the `validate_amount` wrapper (lines 7-21) computes
`kwargs.get('amount') or args[1]` = `args[1]` = the DATE argument, runs
`float` on it and rejects on `ValueError` or a non-positive value; only then
does the body run, where `Transaction.__init__` computes `float(amount)`
(raising an uncaught `ValueError` on non-numeric amounts), assigns
`len(transactions) + 1` as the id and appends. -/
def User.add_transaction (u : User) (date amount : PyStr)
    (category transaction_type description : String) : AddOutcome :=
  match date.toFloat with
  | none => .invalidAmount
  | some d =>
    if d ≤ 0 then .invalidAmount
    else
      match amount.toFloat with
      | none => .valueError
      | some a =>
        let t : Transaction :=
          { transaction_id := u.transactions.length + 1
            date := date.text
            amount := a
            category := category
            type := transaction_type
            description := description }
        .ok t { u with transactions := u.transactions ++ [t] }

/-- The `log_transaction` wrapper (lines 23-33) around `add_transaction`:
when the wrapped call returns a non-`None` result it appends exactly the line
`f"{timestamp} - add_transaction: {args[1]} ${args[2]} - {args[3]}"`, i.e.
`timestamp - add_transaction: <date> $<amount> - <category>`; otherwise
(including an uncaught exception) it appends nothing.  Returns the outcome
together with the list of appended audit-log lines. -/
def User.add_transaction_logged (now : String) (u : User) (date amount : PyStr)
    (category transaction_type description : String) : AddOutcome × List String :=
  match u.add_transaction date amount category transaction_type description with
  | .ok t u' =>
    (.ok t u',
      [now ++ " - add_transaction: " ++ date.text ++ " $" ++ amount.text
        ++ " - " ++ category])
  | r => (r, [])

/-- `User.add_savings_goal` (lines 189-194): id = `len(savings_goals) + 1`,
new goal appended with `current_amount = 0`. -/
def User.add_savings_goal (u : User) (name : String) (target_amount : ℚ) :
    SavingsGoal × User :=
  let goal_id := u.savings_goals.length + 1
  let savings_goal : SavingsGoal :=
    { goal_id := goal_id, name := name, target_amount := target_amount
      current_amount := 0 }
  (savings_goal, { u with savings_goals := u.savings_goals ++ [savings_goal] })

/-- `User.add_budget` (lines 196-201): id = `len(budgets) + 1`. -/
def User.add_budget (u : User) (category : String) (limit : ℚ)
    (period : String) : Budget × User :=
  let budget_id := u.budgets.length + 1
  let budget : Budget :=
    { budget_id := budget_id, category := category, limit := limit
      period := period }
  (budget, { u with budgets := u.budgets ++ [budget] })

/-- The delete-transaction branch of `handle_view_transactions` (lines
458-471): removes the first transaction whose id matches; no renumbering. -/
def removeFirstTransaction : List Transaction → ℕ → List Transaction
  | [], _ => []
  | t :: ts, i => if t.transaction_id = i then ts else t :: removeFirstTransaction ts i

/-- Delete-by-id on the transactions list, as the CLI performs it. -/
def User.delete_transaction_by_id (u : User) (i : ℕ) : User :=
  { u with transactions := removeFirstTransaction u.transactions i }

/-- The delete-category branch of `handle_categories` (lines 804-826), after
the user confirms: transactions with the category are re-pointed to
`"Other"`, budgets with the category are removed, and the category string is
removed from the list; a name not in the list is rejected (`continue`). -/
def User.delete_category (u : User) (category : String) : User :=
  if category ∈ u.categories then
    { u with
      transactions := u.transactions.map (fun t =>
        if t.category = category then { t with category := "Other" } else t)
      budgets := u.budgets.filter (fun b => b.category != category)
      categories := u.categories.erase category }
  else u

/-- The dictionary produced by `Transaction.to_dict` (lines 45-54) and
consumed by `Transaction.from_dict` (lines 56-66); `description` is read with
`data.get('description', '')`, so it is optional in the document. -/
structure TransactionDoc where
  id : ℕ
  date : String
  amount : ℚ
  category : String
  type : String
  description : Option String
  deriving DecidableEq

/-- `Transaction.to_dict` (lines 45-54). -/
def Transaction.to_dict (t : Transaction) : TransactionDoc :=
  { id := t.transaction_id, date := t.date, amount := t.amount
    category := t.category, type := t.type, description := some t.description }

/-- `Transaction.from_dict` (lines 56-66). -/
def Transaction.from_dict (data : TransactionDoc) : Transaction :=
  { transaction_id := data.id, date := data.date, amount := data.amount
    category := data.category, type := data.type
    description := data.description.getD "" }

/-- The dictionary form of a savings goal (lines 83-100); `current_amount` is
read with `data.get('current_amount', 0.0)`. -/
structure SavingsGoalDoc where
  id : ℕ
  name : String
  target_amount : ℚ
  current_amount : Option ℚ
  deriving DecidableEq

/-- `SavingsGoal.to_dict` (lines 83-90). -/
def SavingsGoal.to_dict (g : SavingsGoal) : SavingsGoalDoc :=
  { id := g.goal_id, name := g.name, target_amount := g.target_amount
    current_amount := some g.current_amount }

/-- `SavingsGoal.from_dict` (lines 92-100). -/
def SavingsGoal.from_dict (data : SavingsGoalDoc) : SavingsGoal :=
  { goal_id := data.id, name := data.name, target_amount := data.target_amount
    current_amount := data.current_amount.getD 0 }

/-- The dictionary form of a budget (lines 109-126); `period` is read with
`data.get('period', 'monthly')`. -/
structure BudgetDoc where
  id : ℕ
  category : String
  limit : ℚ
  period : Option String
  deriving DecidableEq

/-- `Budget.to_dict` (lines 109-116). -/
def Budget.to_dict (b : Budget) : BudgetDoc :=
  { id := b.budget_id, category := b.category, limit := b.limit
    period := some b.period }

/-- `Budget.from_dict` (lines 118-126). -/
def Budget.from_dict (data : BudgetDoc) : Budget :=
  { budget_id := data.id, category := data.category, limit := data.limit
    period := data.period.getD "monthly" }

/-- The dictionary form of a user (lines 203-229); the three collection
fields are read with `data.get(..., [])` and `categories` is applied only
when present (`if 'categories' in data`), so all four are optional. -/
structure UserDoc where
  username : String
  password : String
  transactions : Option (List TransactionDoc)
  savings_goals : Option (List SavingsGoalDoc)
  budgets : Option (List BudgetDoc)
  categories : Option (List String)
  deriving DecidableEq

/-- `User.to_dict` (lines 203-212). -/
def User.to_dict (u : User) : UserDoc :=
  { username := u.username
    password := u.password
    transactions := some (u.transactions.map Transaction.to_dict)
    savings_goals := some (u.savings_goals.map SavingsGoal.to_dict)
    budgets := some (u.budgets.map Budget.to_dict)
    categories := some u.categories }

/-- `User.from_dict` (lines 214-229): builds the collections, calls
`User.__init__` (which installs the default category seed) and then
overwrites `categories` when the key is present. -/
def User.from_dict (data : UserDoc) : User :=
  { username := data.username
    password := data.password
    transactions := (data.transactions.getD []).map Transaction.from_dict
    savings_goals := (data.savings_goals.getD []).map SavingsGoal.from_dict
    budgets := (data.budgets.getD []).map Budget.from_dict
    categories := data.categories.getD defaultCategories }

/-- The persisted snapshot document: one entry per user, in dict insertion
order (`save_data`, lines 252-260). -/
def Snapshot := List (String × UserDoc)

/-- Embeds `class FinanceTracker` state (lines 231-236): the user dict and
the session pointer (stored here as the username key). -/
structure FinanceTracker where
  users : List (String × User)
  current_user : Option String
  deriving DecidableEq

/-- The document written by `FinanceTracker.save_data` (lines 252-260). -/
def FinanceTracker.save_data_doc (tr : FinanceTracker) : Snapshot :=
  tr.users.map (fun p => (p.1, p.2.to_dict))

/-- `FinanceTracker.register_user` (lines 262-271): if the username is a key
of `users`, returns `False` without touching anything and without saving;
otherwise inserts `User(username, password)` (default category seed), calls
`save_data` and returns `True`.  The result carries the returned Bool, the
new tracker state, and the snapshot written by `save_data` (`none` = no
write). -/
def FinanceTracker.register_user (tr : FinanceTracker) (username password : String) :
    Bool × FinanceTracker × Option Snapshot :=
  match dictLookup tr.users username with
  | some _ => (false, tr, none)
  | none =>
    let tr' : FinanceTracker :=
      { tr with users := tr.users ++ [(username, User.new username password)] }
    (true, tr', some tr'.save_data_doc)

/-- The arguments of one CLI-style positional `add_transaction` call. -/
structure AddArgs where
  date : PyStr
  amount : PyStr
  category : String
  transaction_type : String
  description : String

/-- Applies one `add_transaction` call to the user state: on `ok` the
returned mutated user, otherwise (clean rejection, or state at the point the
uncaught exception is raised) the unchanged user. -/
def applyAdd (u : User) (a : AddArgs) : User :=
  match u.add_transaction a.date a.amount a.category a.transaction_type a.description with
  | .ok _ u' => u'
  | _ => u

/-- Claim C1: for every User state (hence after every sequence of
`add_transaction` calls), `get_balance()` equals `get_total_income()` minus
`get_total_expenses()`; the three methods compute the same filtered sums. -/
theorem c1_balance_income_minus_expenses (u : User) :
    u.get_balance = u.get_total_income - u.get_total_expenses := rfl

/-- Claim C10: `SavingsGoal.add_funds` performs no validation: it
unconditionally adds the argument to `current_amount`, so a negative argument
decreases it and can drive it below zero (second conjunct: a goal holding 5
receives `add_funds (-10)` and ends at `-5 < 0`). -/
theorem c10_add_funds_unvalidated :
    (∀ (g : SavingsGoal) (x : ℚ),
      (g.add_funds x).current_amount = g.current_amount + x) ∧
    (SavingsGoal.add_funds ⟨1, "vacation", 100, 5⟩ (-10)).current_amount = -5 ∧
    (SavingsGoal.add_funds ⟨1, "vacation", 100, 5⟩ (-10)).current_amount < 0 := by
  refine ⟨fun g x => rfl, by norm_num [SavingsGoal.add_funds],
    by norm_num [SavingsGoal.add_funds]⟩

/-- Claim C6: id assignment follows the count+1 policy.  First conjunct: the
id assigned by `add_savings_goal` is always the current collection length
plus one.  Remaining conjuncts: after creating goals with ids 1, 2, 3 and
removing the goal with id 3 from the collection, the next `add_savings_goal`
assigns id 3 again. -/
theorem c6_count_plus_one_id_policy :
    (∀ (u : User) (name : String) (target : ℚ),
      (u.add_savings_goal name target).1.goal_id = u.savings_goals.length + 1) ∧
    (let u3 := ((((User.new "alice" "pw").add_savings_goal "g1" 100).2.add_savings_goal
        "g2" 200).2.add_savings_goal "g3" 300).2
     let u4 : User :=
       { u3 with savings_goals := u3.savings_goals.filter (fun g => g.goal_id != 3) }
     u3.savings_goals.map SavingsGoal.goal_id = [1, 2, 3] ∧
       u4.savings_goals.map SavingsGoal.goal_id = [1, 2] ∧
       (u4.add_savings_goal "g4" 400).1.goal_id = 3) := by
  refine ⟨fun u name target => rfl, by decide, by decide, by decide⟩

/-- Claim C2 (code bug): `validate_amount` is meant, per its own docstring, to
validate the transaction amount, but for the positional calls the program
makes it reads `args[1]`, which is the `date` parameter (`args[0]` is
`self`).  First conjunct: a call with the ordinary date `"2024-01-15"`
(non-numeric, `float` raises) and the positive amount `50.0` is rejected as
`InvalidAmount` and appends nothing.  Second conjunct: a call with the
numeric date `"5"` and the negative amount `-10` is accepted and appends a
transaction whose `amount` is `-10 ≤ 0`, violating the `amount > 0`
invariant. -/
theorem c2_validate_amount_checks_date_argument :
    (User.new "u" "p").add_transaction ⟨"2024-01-15", none⟩ ⟨"50.0", some 50⟩
        "Groceries" "expense" "lunch" = .invalidAmount ∧
    ((User.new "u" "p").add_transaction ⟨"5", some 5⟩ ⟨"-10", some (-10)⟩
        "Groceries" "expense" "").newTx.map Transaction.amount = some (-10) := by
  exact ⟨rfl, rfl⟩

/-- Claim C9 (counterexample): a successful `add_transaction` with category
`"Food"` and description `"lunch"` logs a line ending with the category
`"Food"`, not the claimed line ending with the description `"lunch"` (the
wrapper interpolates `args[3]`, the category). -/
theorem c9_log_line_counterexample :
    (User.add_transaction_logged "2024-01-01 00:00:00" (User.new "u" "p")
        ⟨"5", some 5⟩ ⟨"10", some 10⟩ "Food" "expense" "lunch").2 =
      ["2024-01-01 00:00:00 - add_transaction: 5 $10 - Food"] ∧
    "2024-01-01 00:00:00 - add_transaction: 5 $10 - Food" ≠
      "2024-01-01 00:00:00 - add_transaction: 5 $10 - lunch" := by
  exact ⟨rfl, by decide⟩

/-- Claim C9 (amended): every successful `add_transaction` appends exactly
one audit-log line, of the form
`"<timestamp> - add_transaction: <dateArg> $<amountArg> - <categoryArg>"` —
i.e. ending with the category argument, not the description; a failed call
(clean rejection or uncaught exception) appends nothing. -/
theorem c9_audit_log_line (now : String) (u : User) (date amount : PyStr)
    (category transaction_type description : String) :
    (User.add_transaction_logged now u date amount category transaction_type
        description).2 =
      if (u.add_transaction date amount category transaction_type
          description).isOk then
        [now ++ " - add_transaction: " ++ date.text ++ " $" ++ amount.text
          ++ " - " ++ category]
      else [] := by
  unfold User.add_transaction_logged
  cases h : u.add_transaction date amount category transaction_type description <;>
    simp [AddOutcome.isOk]

/-- Round-trip of one transaction through its document form. -/
theorem transaction_from_to_dict (t : Transaction) :
    Transaction.from_dict t.to_dict = t := rfl

/-- Round-trip of one savings goal through its document form. -/
theorem savings_goal_from_to_dict (g : SavingsGoal) :
    SavingsGoal.from_dict g.to_dict = g := rfl

/-- Round-trip of one budget through its document form. -/
theorem budget_from_to_dict (b : Budget) :
    Budget.from_dict b.to_dict = b := rfl

/-- Claim C4: serializing any User with `to_dict` and reconstructing with
`from_dict` yields a User field-for-field equal to the original, including
every field of every contained Transaction, Budget and SavingsGoal and the
category list (equality of `User` values is componentwise equality of all
six fields). -/
theorem c4_user_round_trip (u : User) : User.from_dict u.to_dict = u := by
  cases u with
  | mk username password transactions savings_goals budgets categories =>
    simp [User.from_dict, User.to_dict, List.map_map, Function.comp_def,
      transaction_from_to_dict, savings_goal_from_to_dict, budget_from_to_dict]

/-- Claim C8: deleting a category that is present in the category list (and
referenced by at least one Transaction and one Budget) re-points every
transaction with that category to `"Other"`, removes every budget with that
category, and removes the category string from the list; the map/filter form
leaves transactions and budgets with other categories unchanged. -/
theorem c8_delete_category_cascade (u : User) (c : String)
    (hc : c ∈ u.categories)
    (_ht : ∃ t ∈ u.transactions, t.category = c)
    (_hb : ∃ b ∈ u.budgets, b.category = c) :
    (u.delete_category c).transactions =
      u.transactions.map (fun t =>
        if t.category = c then { t with category := "Other" } else t) ∧
    (u.delete_category c).budgets =
      u.budgets.filter (fun b => b.category != c) ∧
    (u.delete_category c).categories = u.categories.erase c := by
  unfold User.delete_category
  rw [if_pos hc]
  exact ⟨rfl, rfl, rfl⟩

/-- A user whose "Bills" category is referenced by a transaction and a
budget, used to instantiate the category-deletion cascade. -/
def uBills : User :=
  { User.new "a" "p" with
    transactions := [{ transaction_id := 1, date := "2024-01-01", amount := 50
                       category := "Bills", type := "expense", description := "x" }]
    budgets := [{ budget_id := 1, category := "Bills", limit := 100
                  period := "monthly" }] }

/-- Witness for claim C8: the cascade instantiated at a concrete user whose
"Bills" category is referenced by one transaction and one budget. -/
theorem c8_delete_category_cascade_witness :
    (uBills.delete_category "Bills").transactions =
      uBills.transactions.map (fun t =>
        if t.category = "Bills" then { t with category := "Other" } else t) ∧
    (uBills.delete_category "Bills").budgets =
      uBills.budgets.filter (fun b => b.category != "Bills") ∧
    (uBills.delete_category "Bills").categories =
      uBills.categories.erase "Bills" :=
  c8_delete_category_cascade uBills "Bills" (by decide)
    ⟨{ transaction_id := 1, date := "2024-01-01", amount := 50
       category := "Bills", type := "expense", description := "x" },
      by decide, rfl⟩
    ⟨{ budget_id := 1, category := "Bills", limit := 100, period := "monthly" },
      by decide, rfl⟩

/-- Claim C7: `register_user` returns `False` and performs no mutation (in
particular the existing user's entry, password included, is untouched) and
does not save when the username is already a key of `users`; when it is
absent it appends a `User` with the default category seed, saves the
serialized snapshot of the updated user set, and returns `True`. -/
theorem c7_register_user (tr : FinanceTracker) (username password : String) :
    (∀ u0 : User, dictLookup tr.users username = some u0 →
      tr.register_user username password = (false, tr, none)) ∧
    (dictLookup tr.users username = none →
      tr.register_user username password =
        (true,
          { tr with users := tr.users ++ [(username, User.new username password)] },
          some (FinanceTracker.save_data_doc
            { tr with
              users := tr.users ++ [(username, User.new username password)] }))) := by
  constructor
  · intro u0 h
    simp [FinanceTracker.register_user, h]
  · intro h
    simp [FinanceTracker.register_user, h]

/-- Witness for claim C7: registering "a" twice — the first call on an empty
registry succeeds and appends a default-category user; the second call with a
different password fails, changes nothing and writes nothing. -/
theorem c7_register_user_witness :
    (FinanceTracker.register_user ⟨[], none⟩ "a" "p" =
      (true, ⟨[("a", User.new "a" "p")], none⟩,
        some (FinanceTracker.save_data_doc ⟨[("a", User.new "a" "p")], none⟩))) ∧
    (FinanceTracker.register_user ⟨[("a", User.new "a" "p")], none⟩ "a" "p2" =
      (false, ⟨[("a", User.new "a" "p")], none⟩, none)) :=
  ⟨(c7_register_user ⟨[], none⟩ "a" "p").2 rfl,
   (c7_register_user ⟨[("a", User.new "a" "p")], none⟩ "a" "p2").1
     (User.new "a" "p") (by simp [dictLookup])⟩

/-- Modelled from the spec's words, for the refinement comparison of claim
C3: for each budget, with `spent = expensesByCategory[budget.category]`
(0 if that category is absent), emit an exceeded message when
`spent >= limit`, otherwise a warning message when `spent >= 0.8 * limit`,
otherwise nothing. -/
def claimBudgetNotifications (u : User) : List BudgetNotification :=
  u.budgets.filterMap (fun budget =>
    if (dictLookup u.get_expenses_by_category budget.category).getD 0 ≥
        budget.limit then
      some (.exceeded budget.category budget.limit
        ((dictLookup u.get_expenses_by_category budget.category).getD 0))
    else if (dictLookup u.get_expenses_by_category budget.category).getD 0 ≥
        budget.limit * (8/10 : ℚ) then
      some (.warning budget.category budget.limit
        ((dictLookup u.get_expenses_by_category budget.category).getD 0))
    else none)

/-- Claim C3: when every budget limit is positive (the data-model invariant
for budgets created through the program), `check_budget_notifications`
produces, in budget-collection order, exactly the messages the spec's
default-0 rule prescribes: one exceeded message when `spent >= limit`,
otherwise one warning message when `spent >= 0.8 * limit`, otherwise none —
at most one message per budget by construction, and none when the category is
absent from the expenses map (then `spent = 0 < 0.8 * limit`). -/
theorem c3_budget_notifications (u : User)
    (h : ∀ b ∈ u.budgets, 0 < b.limit) :
    u.check_budget_notifications = claimBudgetNotifications u := by
  unfold User.check_budget_notifications claimBudgetNotifications
  apply List.filterMap_congr
  intro b hb
  cases hl : dictLookup u.get_expenses_by_category b.category with
  | some s => rfl
  | none =>
    have hb0 := h b hb
    simp only [Option.getD_none]
    rw [if_neg (not_le.mpr hb0), if_neg (not_le.mpr (by positivity))]

/-- A user with one budget (limit 100) and one expense of exactly 100 in its
category, instantiating the budget-notification equivalence. -/
def uBudgetW : User :=
  { User.new "a" "p" with
    transactions := [{ transaction_id := 1, date := "2024-01-01", amount := 100
                       category := "Groceries", type := "expense"
                       description := "" }]
    budgets := [{ budget_id := 1, category := "Groceries", limit := 100
                  period := "monthly" }] }

/-- Witness for claim C3: the positive-limit hypothesis and the conclusion
hold at a concrete user. -/
theorem c3_budget_notifications_witness :
    (∀ b ∈ uBudgetW.budgets, 0 < b.limit) ∧
    uBudgetW.check_budget_notifications = claimBudgetNotifications uBudgetW :=
  ⟨by decide, c3_budget_notifications uBudgetW (by decide)⟩

/-- The transaction ids of a user, in list order. -/
def txIds (u : User) : List ℕ := u.transactions.map Transaction.transaction_id

/-- A fresh user (registration state) after a sequence of positional
`add_transaction` calls. -/
def runAdds (username password : String) (ops : List AddArgs) : User :=
  ops.foldl applyAdd (User.new username password)

/-- One `add_transaction` call preserves the invariant that the id list is
exactly `1, 2, ..., n`. -/
theorem applyAdd_ids (u : User) (a : AddArgs)
    (h : txIds u = List.range' 1 u.transactions.length) :
    txIds (applyAdd u a) = List.range' 1 (applyAdd u a).transactions.length := by
  unfold applyAdd User.add_transaction
  cases hdf : a.date.toFloat with
  | none => exact h
  | some d =>
    dsimp only
    by_cases hd : d ≤ 0
    · rw [if_pos hd]; exact h
    · rw [if_neg hd]
      cases haf : a.amount.toFloat with
      | none => exact h
      | some amt =>
        dsimp only
        simp only [txIds, List.map_append, List.map_cons, List.map_nil,
          List.length_append, List.length_cons, List.length_nil,
          Nat.zero_add, List.range'_concat]
        have hn : 1 + 1 * u.transactions.length = u.transactions.length + 1 := by
          omega
        rw [hn]
        simp only [txIds] at h
        rw [h]

/-- Folding a sequence of `add_transaction` calls preserves the id-list
invariant. -/
theorem foldlAdds_ids (ops : List AddArgs) (u : User)
    (h : txIds u = List.range' 1 u.transactions.length) :
    txIds (ops.foldl applyAdd u) =
      List.range' 1 (ops.foldl applyAdd u).transactions.length := by
  induction ops generalizing u with
  | nil => exact h
  | cons a rest ih => exact ih (applyAdd u a) (applyAdd_ids u a h)

/-- Claim C5 (amended): for every sequence of `add_transaction` calls on a
fresh user with no interleaved deletions, the transaction ids are exactly
`1, 2, ..., n` and hence pairwise distinct; the count+1 policy guarantees
nothing once deletions occur (see the counterexample). -/
theorem c5_ids_distinct_without_deletion (username password : String)
    (ops : List AddArgs) :
    txIds (runAdds username password ops) =
      List.range' 1 (runAdds username password ops).transactions.length ∧
    (txIds (runAdds username password ops)).Nodup := by
  unfold runAdds
  have h := foldlAdds_ids ops (User.new username password) rfl
  exact ⟨h, by rw [h]; exact List.nodup_range' _ _⟩

/-- A CLI-style `add_transaction` argument vector whose date `"1"` parses as
the positive float 1 (so the buggy validator lets it through) and whose
amount `"10"` parses as 10. -/
def aOne : AddArgs :=
  { date := ⟨"1", some 1⟩, amount := ⟨"10", some 10⟩, category := "Groceries"
    transaction_type := "expense", description := "" }

/-- Claim C5 (counterexample): after adding transactions with ids 1, 2, 3 and
deleting id 3, the next `add_transaction` assigns id 3 — the id of the
previously deleted transaction — because ids are assigned as `count+1`; and
after deleting id 1 of two transactions, the next add produces the id list
`[2, 2]`, so the ids in the list are not pairwise distinct either. -/
theorem c5_id_reuse_counterexample :
    txIds (runAdds "a" "p" [aOne, aOne, aOne]) = [1, 2, 3] ∧
    txIds ((runAdds "a" "p" [aOne, aOne, aOne]).delete_transaction_by_id 3) =
      [1, 2] ∧
    (((runAdds "a" "p" [aOne, aOne, aOne]).delete_transaction_by_id
        3).add_transaction aOne.date aOne.amount aOne.category
        aOne.transaction_type aOne.description).newTx.map
        Transaction.transaction_id = some 3 ∧
    txIds (applyAdd ((runAdds "a" "p" [aOne, aOne]).delete_transaction_by_id 1)
      aOne) = [2, 2] ∧
    ¬ (txIds (applyAdd ((runAdds "a" "p"
        [aOne, aOne]).delete_transaction_by_id 1) aOne)).Nodup :=
  ⟨by decide, by decide, by decide, by decide, by decide⟩
